import Mathlib

/-!
Verification development for the QNN quantized-softmax operator
(`src/relay/qnn/op/softmax.cc`): the type relation `QnnSoftmaxRel` and the
canonicalization `QnnSoftmaxCanonicalize` that lowers `qnn.softmax` to an
integer-only expression fragment.

The embedding is shallow:
* Relay types are modelled by `RType` (a tensor type with element dtype and
  shape, or an incomplete/placeholder type).
* Relay expressions built by the canonicalization are modelled by the tree
  `RExpr`, with one constructor per Relay combinator the source uses
  (`Cast`, `Subtract`, `Max`, `Requantize`, ...).
* Machine `int64`/`int32` values are modelled by `Int`; the explicit casts
  wrap modulo `2 ^ width` (two's complement).  Arithmetic between casts is
  modelled on unbounded integers, matching the reference algorithm's
  description of the same operations.
* `float32` scalars appear only in the reciprocal-scale computation
  `Round(1.f / scale)`; they are modelled by an unnormalized fraction
  `Frac` with exact rational semantics.  Rounding is round-to-nearest
  (ties upward); no claim exercises a tie.
* Tensors are modelled one reduction slice at a time: a rank-1 tensor
  (`List Int`) reduced over axis 0, which is the shape on which the
  algorithm is specified to act independently per reduction.
-/

/-- Decidable equality for `Except` results (absent from the library),
so that concrete runs of the modelled functions can be checked by
`decide`. -/
instance {ε α : Type} [DecidableEq ε] [DecidableEq α] :
    DecidableEq (Except ε α) := fun a b =>
  match a, b with
  | Except.ok x, Except.ok y =>
    if h : x = y then isTrue (by rw [h]) else
      isFalse (fun hc => h (by injection hc))
  | Except.error x, Except.error y =>
    if h : x = y then isTrue (by rw [h]) else
      isFalse (fun hc => h (by injection hc))
  | Except.ok _, Except.error _ => isFalse (fun hc => by injection hc)
  | Except.error _, Except.ok _ => isFalse (fun hc => by injection hc)

/-- Element data types (`tvm::runtime::DataType`), restricted to the kinds
used by the softmax operator: signed/unsigned integers and floats of a given
bit width. -/
inductive DType where
  | int (bits : Nat)
  | uint (bits : Nat)
  | float (bits : Nat)
deriving DecidableEq

/-- Relay types as seen by the type relation: a tensor type carrying an
element dtype and a shape, or an unresolved placeholder
(`IncompleteTypeNode`, also standing for any non-tensor type, for which
`types[0].as<TensorTypeNode>()` yields `nullptr`). -/
inductive RType where
  | tensor (dt : DType) (shape : List Nat)
  | incomplete
deriving DecidableEq

/-- Fatal errors of the type relation.  An `ICHECK` failure aborts type
checking; `typeContract i` records the offending operand slot. -/
inductive RelErr where
  | arityMismatch
  | typeContract (slot : Nat)
deriving DecidableEq

/-- Modelled from the spec: `IsScalarType` (a QNN helper that is not under
`src/`) — the slot must be a scalar (rank-0) tensor type of the given
dtype. -/
def IsScalarType (t : RType) (dt : DType) : Bool :=
  match t with
  | RType.tensor d s => decide (d = dt) && decide (s = [])
  | RType.incomplete => false

/-- Modelled from the spec: `IdentityRel` (Relay's identity type relation,
not under `src/`) — "output must have the same shape as input; its dtype is
whatever the output quantization parameters imply (determined elsewhere, not
overridden here)".  Given the already-resolved input tensor type and the
output slot, it resolves the output to the input's shape, keeping the output
dtype when one is already known. -/
def IdentityRel (input output : RType) : Bool × RType :=
  match input with
  | RType.tensor dt shape =>
    match output with
    | RType.tensor odt _ => (true, RType.tensor odt shape)
    | RType.incomplete => (true, RType.tensor dt shape)
  | RType.incomplete => (false, output)

/-- The `qnn.softmax` type relation `QnnSoftmaxRel`
(src/relay/qnn/op/softmax.cc, lines 39-70).  The reporter's `Assign` side
effects are modelled by returning the updated six-element type list next to
the boolean result; `ICHECK` failures are modelled by `Except.error`.  The
`axis` attribute is passed (as part of `attrs` in the source) but the
relation never reads it. -/
def QnnSoftmaxRel (axis : Int) (types : List RType) :
    Except RelErr (Bool × List RType) :=
  match types with
  | [input, scale_in, zero_point_in, scale_out, zero_point_out, output] =>
    match input with
    | RType.incomplete =>
      -- `types[0].as<TensorTypeNode>()` is null: defer (line 44).
      Except.ok (false,
        [RType.incomplete, scale_in, zero_point_in, scale_out,
         zero_point_out, output])
    | RType.tensor dt shape =>
      if dt = DType.int 8 then
        -- Lines 49-53: any still-incomplete quantization parameter defers.
        if scale_in = RType.incomplete ∨ zero_point_in = RType.incomplete ∨
            scale_out = RType.incomplete ∨ zero_point_out = RType.incomplete
        then
          Except.ok (false,
            [RType.tensor dt shape, scale_in, zero_point_in, scale_out,
             zero_point_out, output])
        else
          -- Lines 55-58: ICHECK(IsScalarType ...) for each parameter.
          if IsScalarType scale_in (DType.float 32) then
            if IsScalarType zero_point_in (DType.int 32) then
              if IsScalarType scale_out (DType.float 32) then
                if IsScalarType zero_point_out (DType.int 32) then
                  -- Lines 61-64: assign canonical scalar types, then
                  -- lines 68-69: delegate input/output to IdentityRel.
                  let res := IdentityRel (RType.tensor dt shape) output
                  Except.ok (res.1,
                    [RType.tensor dt shape,
                     RType.tensor (DType.float 32) [],
                     RType.tensor (DType.int 32) [],
                     RType.tensor (DType.float 32) [],
                     RType.tensor (DType.int 32) [],
                     res.2])
                else Except.error (RelErr.typeContract 4)
              else Except.error (RelErr.typeContract 3)
            else Except.error (RelErr.typeContract 2)
          else Except.error (RelErr.typeContract 1)
      else
        -- Line 45: ICHECK(x->dtype == DataType::Int(8)).
        Except.error (RelErr.typeContract 0)
  | _ => Except.error RelErr.arityMismatch

/-- Shape of a resolved type (`[]` for a placeholder). -/
def rshape : RType → List Nat
  | RType.tensor _ s => s
  | RType.incomplete => []

/-- Element dtype of a resolved type, when known. -/
def rdtype : RType → Option DType
  | RType.tensor d _ => some d
  | RType.incomplete => none

/-- Exact (unnormalized) fraction, modelling the `float32` scalar values
that flow through `Round(Divide(1.f, input_scale))`.  The claims only
exercise scales whose reciprocals are exactly representable, so exact
rational semantics is faithful there. -/
structure Frac where
  num : Int
  den : Int
deriving DecidableEq

/-- Exact division of fractions (no normalization, so that all operations
are plain integer arithmetic). -/
def Frac.div (a b : Frac) : Frac := ⟨a.num * b.den, a.den * b.num⟩

/-- Round to the nearest integer (ties toward positive infinity; the C++
`Round` rounds ties to even, and no claim exercises a tie). -/
def Frac.round (a : Frac) : Int :=
  if a.den < 0 then Int.fdiv (2 * (-a.num) + (-a.den)) (2 * (-a.den))
  else Int.fdiv (2 * a.num + a.den) (2 * a.den)

/-- Truncate a fraction toward zero, as a C cast from float to int does. -/
def Frac.trunc (a : Frac) : Int := Int.tdiv a.num a.den

/-- Relay expressions, one constructor per combinator used by
`QnnSoftmaxCanonicalize`: the five operands (`arg i`, carrying the element
dtype the validated contract gives them), scalar constants, `Cast`,
elementwise arithmetic, the two reductions, `Round` and the external
`Requantize` primitive. -/
inductive RExpr where
  | arg (i : Nat) (dt : DType)
  | constI (dt : DType) (v : Int)
  | constF (dt : DType) (v : Frac)
  | cast (e : RExpr) (dt : DType)
  | sub (a b : RExpr)
  | add (a b : RExpr)
  | mul (a b : RExpr)
  | div (a b : RExpr)
  | neg (a : RExpr)
  | shiftR (a b : RExpr)
  | shiftL (a b : RExpr)
  | maxR (e : RExpr) (axis : Int) (keepdims exclude : Bool)
  | sumR (e : RExpr) (axis : Int) (keepdims exclude : Bool)
  | round (e : RExpr)
  | requantize (data : RExpr) (shape : List Nat) (in_scale in_zero_point
      out_scale out_zero_point : RExpr) (out_dtype : DType) (axis : Int)
deriving DecidableEq

namespace Relay

/-- Relay `MakeConstantScalar` for integer dtypes. -/
def MakeConstantScalar (dt : DType) (v : Int) : RExpr := RExpr.constI dt v

/-- Relay `MakeConstantScalar` for float dtypes (value held exactly). -/
def MakeConstantScalarF (dt : DType) (v : Frac) : RExpr := RExpr.constF dt v

/-- Relay `Cast(expr, dtype)`. -/
def Cast (e : RExpr) (dt : DType) : RExpr := RExpr.cast e dt

/-- Relay elementwise `Subtract`. -/
def Subtract (a b : RExpr) : RExpr := RExpr.sub a b

/-- Relay elementwise `Add`. -/
def Add (a b : RExpr) : RExpr := RExpr.add a b

/-- Relay elementwise `Multiply`. -/
def Multiply (a b : RExpr) : RExpr := RExpr.mul a b

/-- Relay elementwise `Divide` (truncating on integers). -/
def Divide (a b : RExpr) : RExpr := RExpr.div a b

/-- Relay elementwise `Negative`. -/
def Negative (a : RExpr) : RExpr := RExpr.neg a

/-- Relay elementwise `RightShift` (arithmetic). -/
def RightShift (a b : RExpr) : RExpr := RExpr.shiftR a b

/-- Relay elementwise `LeftShift`. -/
def LeftShift (a b : RExpr) : RExpr := RExpr.shiftL a b

/-- Relay reduction `Max(e, {axis}, keepdims, exclude)`. -/
def Max (e : RExpr) (axis : Int) (keepdims exclude : Bool) : RExpr :=
  RExpr.maxR e axis keepdims exclude

/-- Relay reduction `Sum(e, {axis}, keepdims, exclude)`. -/
def Sum (e : RExpr) (axis : Int) (keepdims exclude : Bool) : RExpr :=
  RExpr.sumR e axis keepdims exclude

/-- Relay `Round`. -/
def Round (e : RExpr) : RExpr := RExpr.round e

/-- The external requantization primitive (consumed, not reimplemented). -/
def Requantize (data : RExpr) (shape : List Nat) (in_scale in_zero_point
    out_scale out_zero_point : RExpr) (out_dtype : DType) (axis : Int) :
    RExpr :=
  RExpr.requantize data shape in_scale in_zero_point out_scale
    out_zero_point out_dtype axis

end Relay

open Relay

/-- Algorithm constant `n = 30` (shift width for the exponent left-shift),
line 106 of the source. -/
def softmax_n : Int := 30

/-- Algorithm constant `m = 60` (extra fractional bits for the division),
line 107 of the source. -/
def softmax_m : Int := 60

/-- Algorithm constant `bits = 8` (target output precision), line 108. -/
def softmax_bits : Nat := 8

/-- Line 97: `const_i64(val) = MakeConstantScalar(DataType::Int(64), val)`. -/
def const_i64 (v : Int) : RExpr := MakeConstantScalar (DType.int 64) v

/-- Lines 98-99: `quantized_data = Subtract(Cast(new_args[0], Int(64)),
Cast(input_zero_point, Int(64)))`. -/
def softmax_quantized_data (data input_zero_point : RExpr) : RExpr :=
  Subtract (Cast data (DType.int 64)) (Cast input_zero_point (DType.int 64))

/-- Lines 101-102: `x_0 = Cast(Round(Divide(MakeConstantScalar(Float(32),
1.f), input_scale)), Int(64))`. -/
def softmax_x_0 (input_scale : RExpr) : RExpr :=
  Cast (Round (Divide (MakeConstantScalarF (DType.float 32) ⟨1, 1⟩)
    input_scale)) (DType.int 64)

/-- Line 103: `max = Max(quantized_data, {axis}, true, false)`. -/
def softmax_max (data input_zero_point : RExpr) (axis : Int) : RExpr :=
  Max (softmax_quantized_data data input_zero_point) axis true false

/-- Line 104: `x = Subtract(quantized_data, max)`. -/
def softmax_x (data input_zero_point : RExpr) (axis : Int) : RExpr :=
  Subtract (softmax_quantized_data data input_zero_point)
    (softmax_max data input_zero_point axis)

/-- Line 109: `x_p = Subtract(Add(x, RightShift(x, 1)), RightShift(x, 4))`. -/
def softmax_x_p (data input_zero_point : RExpr) (axis : Int) : RExpr :=
  Subtract
    (Add (softmax_x data input_zero_point axis)
      (RightShift (softmax_x data input_zero_point axis) (const_i64 1)))
    (RightShift (softmax_x data input_zero_point axis) (const_i64 4))

/-- Line 110: `q = Divide(x_p, Negative(x_0))`. -/
def softmax_q (data input_zero_point input_scale : RExpr) (axis : Int) :
    RExpr :=
  Divide (softmax_x_p data input_zero_point axis)
    (Negative (softmax_x_0 input_scale))

/-- Line 111: `r = Subtract(x_p, Multiply(q, Negative(x_0)))`. -/
def softmax_r (data input_zero_point input_scale : RExpr) (axis : Int) :
    RExpr :=
  Subtract (softmax_x_p data input_zero_point axis)
    (Multiply (softmax_q data input_zero_point input_scale axis)
      (Negative (softmax_x_0 input_scale)))

/-- Line 112: `x_b = Add(RightShift(r, 1), x_0)`. -/
def softmax_x_b (data input_zero_point input_scale : RExpr) (axis : Int) :
    RExpr :=
  Add (RightShift (softmax_r data input_zero_point input_scale axis)
    (const_i64 1)) (softmax_x_0 input_scale)

/-- Line 113: `exps = LeftShift(x_b, Subtract(n, q))`. -/
def softmax_exps (data input_zero_point input_scale : RExpr) (axis : Int) :
    RExpr :=
  LeftShift (softmax_x_b data input_zero_point input_scale axis)
    (Subtract (const_i64 softmax_n)
      (softmax_q data input_zero_point input_scale axis))

/-- Line 114: `sums = Sum(exps, {axis}, true, false)`. -/
def softmax_sums (data input_zero_point input_scale : RExpr) (axis : Int) :
    RExpr :=
  Sum (softmax_exps data input_zero_point input_scale axis) axis true false

/-- Lines 115-116: `output = RightShift(Multiply(Divide(1 << m, sums), exps),
m - bits)`. -/
def softmax_output (data input_zero_point input_scale : RExpr)
    (axis : Int) : RExpr :=
  RightShift
    (Multiply
      (Divide (const_i64 (2 ^ 60))
        (softmax_sums data input_zero_point input_scale axis))
      (softmax_exps data input_zero_point input_scale axis))
    (const_i64 (softmax_m - softmax_bits))

/-- Failure of the canonicalization: its only `ICHECK` is the arity check
`ICHECK_EQ(new_args.size(), 5)` on line 87. -/
inductive CanonErr where
  | arityMismatch
deriving DecidableEq

/-- `QnnSoftmaxCanonicalize` (src/relay/qnn/op/softmax.cc, lines 84-123):
given the `axis` attribute, the five argument expressions and the shape of
the operand's validated type (`arg_types[0]`), it builds the integer
softmax fragment and wraps it in the external `Requantize` call
(lines 117-122).  The only failure is the arity `ICHECK`. -/
def QnnSoftmaxCanonicalize (axis : Int) (new_args : List RExpr)
    (data_shape : List Nat) : Except CanonErr RExpr :=
  match new_args with
  | [data, input_scale, input_zero_point, output_scale, output_zero_point] =>
    Except.ok
      (Requantize
        (Cast (softmax_output data input_zero_point input_scale axis)
          (DType.int 32))
        data_shape
        (MakeConstantScalarF (DType.float 32) ⟨1, 2 ^ softmax_bits⟩)
        (const_i64 0)
        output_scale output_zero_point (DType.int softmax_bits) 0)
  | _ => Except.error CanonErr.arityMismatch

/-- Whether a canonicalization attempt produced a fragment. -/
def canonOk : Except CanonErr RExpr → Bool
  | Except.ok _ => true
  | Except.error _ => false

/-- Two's-complement wrap of an integer into a signed `bits`-wide value,
the semantics of `Cast` between integer dtypes. -/
def wrapInt (bits : Nat) (v : Int) : Int :=
  (v + 2 ^ (bits - 1)) % 2 ^ bits - 2 ^ (bits - 1)

/-- Arithmetic right shift of an `int64` value (floor division by a power
of two, which is what the machine shift computes); `Int./` is Euclidean
division, which agrees with floor division for positive divisors. -/
def rsh (x s : Int) : Int := x / 2 ^ s.toNat

/-- Left shift of an `int64` value.  A negative shift amount is undefined
behaviour in the source language; `Int.toNat` maps it to a shift by zero
here, and the theorems about valid inputs show nonnegative amounts. -/
def shl (x s : Int) : Int := x * 2 ^ s.toNat

/-- The value of `Max(·, {0}, keepdims, false)` on a rank-1 tensor. -/
def reduceMax : List Int → Int
  | [] => 0
  | a :: l => l.foldl max a

/-- Runtime values of the fragment on a rank-1 slice: wide integer scalars,
float scalars, and rank-1 integer tensors (a keepdims reduction of a rank-1
tensor is the scalar broadcast back over the axis). -/
inductive Val where
  | vi (n : Int)
  | vf (q : Frac)
  | vt (xs : List Int)
deriving DecidableEq

/-- Elementwise integer binary operation with scalar broadcasting. -/
def broadcast2 (f : Int → Int → Int) : Val → Val → Option Val
  | Val.vi a, Val.vi b => some (Val.vi (f a b))
  | Val.vt a, Val.vi b => some (Val.vt (a.map (fun x => f x b)))
  | Val.vi a, Val.vt b => some (Val.vt (b.map (fun x => f a x)))
  | Val.vt a, Val.vt b =>
      if a.length = b.length then some (Val.vt (List.zipWith f a b))
      else none
  | _, _ => none

/-- Evaluation of a fragment on one rank-1 reduction slice, with operand
values supplied by `env`.  Integer `Divide` truncates toward zero
(`Int.tdiv`), shifts are arithmetic, casts wrap.  The external
`Requantize` primitive is not evaluated here (it is a consumed
collaborator, outside this component). -/
def eval (env : Nat → Val) : RExpr → Option Val
  | RExpr.arg i _ => some (env i)
  | RExpr.constI _ v => some (Val.vi v)
  | RExpr.constF _ v => some (Val.vf v)
  | RExpr.cast e dt => do
      let v ← eval env e
      match dt, v with
      | DType.int b, Val.vi n => some (Val.vi (wrapInt b n))
      | DType.int b, Val.vt xs => some (Val.vt (xs.map (wrapInt b)))
      | DType.int b, Val.vf q => some (Val.vi (wrapInt b q.trunc))
      | DType.float _, Val.vf q => some (Val.vf q)
      | DType.float _, Val.vi n => some (Val.vf ⟨n, 1⟩)
      | _, _ => none
  | RExpr.sub a b => do
      broadcast2 (fun x y => x - y) (← eval env a) (← eval env b)
  | RExpr.add a b => do
      broadcast2 (fun x y => x + y) (← eval env a) (← eval env b)
  | RExpr.mul a b => do
      broadcast2 (fun x y => x * y) (← eval env a) (← eval env b)
  | RExpr.div a b => do
      let va ← eval env a
      let vb ← eval env b
      match va, vb with
      | Val.vf x, Val.vf y => some (Val.vf (x.div y))
      | _, _ => broadcast2 Int.tdiv va vb
  | RExpr.neg a => do
      match ← eval env a with
      | Val.vi n => some (Val.vi (-n))
      | Val.vt xs => some (Val.vt (xs.map (fun x => -x)))
      | Val.vf q => some (Val.vf ⟨-q.num, q.den⟩)
  | RExpr.shiftR a b => do
      broadcast2 rsh (← eval env a) (← eval env b)
  | RExpr.shiftL a b => do
      broadcast2 shl (← eval env a) (← eval env b)
  | RExpr.maxR e _ _ _ => do
      match ← eval env e with
      | Val.vt xs => some (Val.vi (reduceMax xs))
      | _ => none
  | RExpr.sumR e _ _ _ => do
      match ← eval env e with
      | Val.vt xs => some (Val.vi xs.sum)
      | _ => none
  | RExpr.round e => do
      match ← eval env e with
      | Val.vf q => some (Val.vf ⟨q.round, 1⟩)
      | _ => none
  | RExpr.requantize _ _ _ _ _ _ _ _ => none

/-- Static element dtype of an expression, when the expression is
well-typed (binary operations require agreeing operand dtypes; a cast
retypes its operand; `Requantize` produces its target dtype). -/
def dtypeOf : RExpr → Option DType
  | RExpr.arg _ dt => some dt
  | RExpr.constI dt _ => some dt
  | RExpr.constF dt _ => some dt
  | RExpr.cast e dt => (dtypeOf e).map (fun _ => dt)
  | RExpr.sub a b => do
      let da ← dtypeOf a
      let db ← dtypeOf b
      if da = db then some da else none
  | RExpr.add a b => do
      let da ← dtypeOf a
      let db ← dtypeOf b
      if da = db then some da else none
  | RExpr.mul a b => do
      let da ← dtypeOf a
      let db ← dtypeOf b
      if da = db then some da else none
  | RExpr.div a b => do
      let da ← dtypeOf a
      let db ← dtypeOf b
      if da = db then some da else none
  | RExpr.neg a => dtypeOf a
  | RExpr.shiftR a b => do
      let da ← dtypeOf a
      let db ← dtypeOf b
      if da = db then some da else none
  | RExpr.shiftL a b => do
      let da ← dtypeOf a
      let db ← dtypeOf b
      if da = db then some da else none
  | RExpr.maxR e _ _ _ => dtypeOf e
  | RExpr.sumR e _ _ _ => dtypeOf e
  | RExpr.round e => dtypeOf e
  | RExpr.requantize d _ _ _ _ _ dt _ => (dtypeOf d).map (fun _ => dt)

/-- All casts occurring in an expression, as pairs of the operand's static
dtype and the target dtype, in traversal order. -/
def collectCasts : RExpr → List (Option DType × DType)
  | RExpr.cast e dt => collectCasts e ++ [(dtypeOf e, dt)]
  | RExpr.sub a b => collectCasts a ++ collectCasts b
  | RExpr.add a b => collectCasts a ++ collectCasts b
  | RExpr.mul a b => collectCasts a ++ collectCasts b
  | RExpr.div a b => collectCasts a ++ collectCasts b
  | RExpr.neg a => collectCasts a
  | RExpr.shiftR a b => collectCasts a ++ collectCasts b
  | RExpr.shiftL a b => collectCasts a ++ collectCasts b
  | RExpr.maxR e _ _ _ => collectCasts e
  | RExpr.sumR e _ _ _ => collectCasts e
  | RExpr.round e => collectCasts e
  | RExpr.requantize d _ s z os oz _ _ =>
      collectCasts d ++ collectCasts s ++ collectCasts z ++ collectCasts os
        ++ collectCasts oz
  | _ => []

/-- A cast narrows when it maps a wider integer dtype to a strictly
narrower integer dtype. -/
def isNarrowing : Option DType × DType → Bool
  | (some (DType.int a), DType.int b) => decide (b < a)
  | _ => false

/-- The reference algorithm's reciprocal-scale constant
`x0 = round(1 / scale_in)`. -/
def recipRound (s : Frac) : Int := Frac.round (Frac.div ⟨1, 1⟩ s)

/-- Reference algorithm (from the spec, constants `n = 30`, `m = 60`,
`bits = 8`): `centered = int64(data) - int64(zero_point_in)`. -/
def specCentered (data : List Int) (zero_point_in : Int) : List Int :=
  data.map (fun d => d - zero_point_in)

/-- Reference algorithm:
`x = centered - reduce_max(centered, axis, keepdims)`. -/
def specX (data : List Int) (zero_point_in : Int) : List Int :=
  (specCentered data zero_point_in).map
    (fun c => c - reduceMax (specCentered data zero_point_in))

/-- Reference algorithm: `x_p = x + (x >> 1) - (x >> 4)`. -/
def specXp (data : List Int) (zero_point_in : Int) : List Int :=
  (specX data zero_point_in).map (fun x => x + rsh x 1 - rsh x 4)

/-- Reference algorithm: `q = x_p / (-x0)` (truncating division). -/
def specQ (data : List Int) (zero_point_in x0 : Int) : List Int :=
  (specXp data zero_point_in).map (fun v => Int.tdiv v (-x0))

/-- Reference algorithm: `r = x_p - q * (-x0)`. -/
def specR (data : List Int) (zero_point_in x0 : Int) : List Int :=
  List.zipWith (fun xp q => xp - q * (-x0)) (specXp data zero_point_in)
    (specQ data zero_point_in x0)

/-- Reference algorithm: `x_b = (r >> 1) + x0`. -/
def specXb (data : List Int) (zero_point_in x0 : Int) : List Int :=
  (specR data zero_point_in x0).map (fun r => rsh r 1 + x0)

/-- Reference algorithm: `exps = x_b << (n - q)` elementwise, `n = 30`. -/
def specExps (data : List Int) (zero_point_in x0 : Int) : List Int :=
  List.zipWith (fun xb q => shl xb (30 - q)) (specXb data zero_point_in x0)
    (specQ data zero_point_in x0)

/-- Reference algorithm:
`output_wide = ((1 << m) / reduce_sum(exps)) * exps >> (m - bits)`,
with `m = 60` and `bits = 8`. -/
def specOutputWide (data : List Int) (zero_point_in x0 : Int) : List Int :=
  (specExps data zero_point_in x0).map
    (fun e =>
      rsh (Int.tdiv (2 ^ 60) (specExps data zero_point_in x0).sum * e) 52)

/-- The operand expression, with the dtype the validated contract gives
it. -/
def data_arg : RExpr := RExpr.arg 0 (DType.int 8)

/-- The input-scale operand expression (scalar `float32`). -/
def scale_arg : RExpr := RExpr.arg 1 (DType.float 32)

/-- The input-zero-point operand expression (scalar `int32`). -/
def zp_arg : RExpr := RExpr.arg 2 (DType.int 32)

/-- The output-scale operand expression (scalar `float32`). -/
def oscale_arg : RExpr := RExpr.arg 3 (DType.float 32)

/-- The output-zero-point operand expression (scalar `int32`). -/
def ozp_arg : RExpr := RExpr.arg 4 (DType.int 32)

/-- The canonical five-argument list of a `qnn.softmax` call. -/
def std_args : List RExpr := [data_arg, scale_arg, zp_arg, oscale_arg, ozp_arg]

/-- Environment binding the five operands to concrete slice values. -/
def envOf (data : List Int) (scale : Frac) (zero_point : Int)
    (output_scale : Frac) (output_zero_point : Int) : Nat → Val
  | 0 => Val.vt data
  | 1 => Val.vf scale
  | 2 => Val.vi zero_point
  | 3 => Val.vf output_scale
  | 4 => Val.vi output_zero_point
  | _ => Val.vi 0

/-- Checks that a fragment evaluation produced a tensor all of whose
elements are at most `n = 30` (the left-shift budget). -/
def qBounded (o : Option Val) : Bool :=
  match o with
  | some (Val.vt qs) => qs.all (fun v => decide (v ≤ 30))
  | _ => false

/-- Every initial accumulator is below the maximum fold. -/
theorem le_foldl_max (l : List Int) (b : Int) : b ≤ l.foldl max b := by
  induction l generalizing b with
  | nil => exact le_refl b
  | cons a t ih => exact le_trans (le_max_left b a) (ih (max b a))

/-- Every member is below the maximum fold. -/
theorem mem_le_foldl_max (l : List Int) (b : Int) :
    ∀ a ∈ l, a ≤ l.foldl max b := by
  induction l generalizing b with
  | nil => intro a ha; cases ha
  | cons c t ih =>
    intro a ha
    rcases List.mem_cons.mp ha with h | h
    · subst h; exact le_trans (le_max_right b a) (le_foldl_max t (max b a))
    · exact ih (max b c) a h

/-- Every member is below `reduceMax`. -/
theorem mem_le_reduceMax (l : List Int) : ∀ a ∈ l, a ≤ reduceMax l := by
  intro a ha
  cases l with
  | nil => cases ha
  | cons c t =>
    rcases List.mem_cons.mp ha with h | h
    · subst h; exact le_foldl_max t a
    · exact mem_le_foldl_max t c a h

/-- A fold of maxima stays below any common upper bound. -/
theorem foldl_max_le (l : List Int) (b B : Int) (hb : b ≤ B)
    (h : ∀ a ∈ l, a ≤ B) : l.foldl max b ≤ B := by
  induction l generalizing b with
  | nil => exact hb
  | cons c t ih =>
    exact ih (max b c)
      (max_le hb (h c (List.mem_cons_self c t)))
      (fun a ha => h a (List.mem_cons_of_mem c ha))

/-- `reduceMax` of a nonempty list stays below any common upper bound. -/
theorem reduceMax_le (l : List Int) (B : Int) (hne : l ≠ [])
    (h : ∀ a ∈ l, a ≤ B) : reduceMax l ≤ B := by
  cases l with
  | nil => exact absurd rfl hne
  | cons c t =>
    exact foldl_max_le t c B (h c (List.mem_cons_self c t))
      (fun a ha => h a (List.mem_cons_of_mem c ha))

/-- Claim C5: calling the validator with a `uint8` input tensor is fatal
(`ICHECK` on the dtype, slot 0), and calling it with a non-scalar
`scale_in` (any nonempty shape), the other parameters being resolved, is
fatal (`ICHECK(IsScalarType ...)`, slot 1); neither returns the non-fatal
unresolved result. -/
theorem claim5_validator_fatal_on_uint8_and_nonscalar_scale :
    (∀ (axis : Int) (shape : List Nat) (t1 t2 t3 t4 t5 : RType),
      QnnSoftmaxRel axis
        [RType.tensor (DType.uint 8) shape, t1, t2, t3, t4, t5] =
        Except.error (RelErr.typeContract 0)) ∧
    (∀ (axis : Int) (shape sshape : List Nat) (t2 t3 t4 t5 : RType),
      sshape ≠ [] →
      t2 ≠ RType.incomplete → t3 ≠ RType.incomplete →
      t4 ≠ RType.incomplete →
      QnnSoftmaxRel axis
        [RType.tensor (DType.int 8) shape,
         RType.tensor (DType.float 32) sshape, t2, t3, t4, t5] =
        Except.error (RelErr.typeContract 1)) := by
  constructor
  · intro axis shape t1 t2 t3 t4 t5
    simp [QnnSoftmaxRel]
  · intro axis shape sshape t2 t3 t4 t5 hs h2 h3 h4
    simp [QnnSoftmaxRel, IsScalarType, hs, h2, h3, h4]

/-- Claim C5 witness: both fatalities at concrete inputs. -/
theorem claim5_witness :
    QnnSoftmaxRel 0
      [RType.tensor (DType.uint 8) [3], RType.tensor (DType.float 32) [],
       RType.tensor (DType.int 32) [], RType.tensor (DType.float 32) [],
       RType.tensor (DType.int 32) [], RType.incomplete] =
      Except.error (RelErr.typeContract 0) ∧
    QnnSoftmaxRel 0
      [RType.tensor (DType.int 8) [3], RType.tensor (DType.float 32) [2],
       RType.tensor (DType.int 32) [], RType.tensor (DType.float 32) [],
       RType.tensor (DType.int 32) [], RType.incomplete] =
      Except.error (RelErr.typeContract 1) :=
  ⟨claim5_validator_fatal_on_uint8_and_nonscalar_scale.1 0 [3]
      (RType.tensor (DType.float 32) []) (RType.tensor (DType.int 32) [])
      (RType.tensor (DType.float 32) []) (RType.tensor (DType.int 32) [])
      RType.incomplete,
    claim5_validator_fatal_on_uint8_and_nonscalar_scale.2 0 [3] [2]
      (RType.tensor (DType.int 32) []) (RType.tensor (DType.float 32) [])
      (RType.tensor (DType.int 32) []) RType.incomplete
      (by decide) (by decide) (by decide) (by decide)⟩

/-- Claim C6 counterexample: a `uint8` tensor input is not a tensor type
with element dtype exactly `int8`, yet the validator raises the fatal
dtype `ICHECK` instead of returning the non-fatal `false`. -/
theorem claim6_counterexample_uint8_raises :
    QnnSoftmaxRel 1
      [RType.tensor (DType.uint 8) [4], RType.tensor (DType.float 32) [],
       RType.tensor (DType.int 32) [], RType.tensor (DType.float 32) [],
       RType.tensor (DType.int 32) [], RType.incomplete] =
      Except.error (RelErr.typeContract 0) := by decide

/-- Claim C6 (amended): only when the first element is not a tensor type
at all does the validator treat the relation as unresolved and return
`false` without raising; a tensor type with a non-`int8` element dtype is
instead a fatal error. -/
theorem claim6_amended_nontensor_returns_false :
    ∀ (axis : Int) (t1 t2 t3 t4 t5 : RType),
      QnnSoftmaxRel axis [RType.incomplete, t1, t2, t3, t4, t5] =
        Except.ok (false, [RType.incomplete, t1, t2, t3, t4, t5]) :=
  fun _ _ _ _ _ _ => rfl

/-- Claim C9 counterexample: with `axis = 2` on a rank-2 operand the
validator succeeds (returns `true` and resolves all slots); no fatal
error is raised. -/
theorem claim9_counterexample_axis_ignored :
    QnnSoftmaxRel 2
      [RType.tensor (DType.int 8) [2, 3], RType.tensor (DType.float 32) [],
       RType.tensor (DType.int 32) [], RType.tensor (DType.float 32) [],
       RType.tensor (DType.int 32) [], RType.incomplete] =
      Except.ok (true,
        [RType.tensor (DType.int 8) [2, 3], RType.tensor (DType.float 32) [],
         RType.tensor (DType.int 32) [], RType.tensor (DType.float 32) [],
         RType.tensor (DType.int 32) [],
         RType.tensor (DType.int 8) [2, 3]]) := by decide

/-- Claim C9 (amended): the validator never reads the `axis` attribute;
its result is the same for every axis value, so an out-of-range axis is
not rejected by this component. -/
theorem claim9_amended_validator_ignores_axis :
    ∀ (axis axis2 : Int) (types : List RType),
      QnnSoftmaxRel axis types = QnnSoftmaxRel axis2 types :=
  fun _ _ _ => rfl

/-- Claim C2 counterexample: with `scale_in` the constant 3 (so that
`round(1/scale_in) = 0`) the lowering still succeeds and returns a
fragment, and the divisor expression `Negative(x_0)` of the fragment's
quotient step evaluates to zero — no Numeric Precondition Violation is
raised. -/
theorem claim2_counterexample_no_zero_guard :
    recipRound ⟨3, 1⟩ = 0 ∧
    canonOk (QnnSoftmaxCanonicalize 0
      [data_arg, Relay.MakeConstantScalarF (DType.float 32) ⟨3, 1⟩, zp_arg,
       oscale_arg, ozp_arg] [2]) = true ∧
    eval (envOf [0, 0] ⟨3, 1⟩ 0 ⟨1, 1⟩ 0)
      (Relay.Negative (softmax_x_0
        (Relay.MakeConstantScalarF (DType.float 32) ⟨3, 1⟩))) =
      some (Val.vi 0) := by
  refine ⟨by decide, rfl, by decide⟩

/-- Claim C2 (amended): the lowering performs no reciprocal-scale check at
all: every five-argument invocation succeeds, including those whose
`scale_in` makes `round(1/scale_in)` evaluate to zero, in which case the
produced fragment contains a division whose divisor evaluates to zero. -/
theorem claim2_amended_lowering_never_fails :
    ∀ (axis : Int) (a0 a1 a2 a3 a4 : RExpr) (shape : List Nat),
      canonOk (QnnSoftmaxCanonicalize axis [a0, a1, a2, a3, a4] shape) =
        true :=
  fun _ _ _ _ _ _ _ => rfl

/-- Claim C7: for every invocation the canonicalization returns exactly
the external requantize call applied to the `Int(32)` narrowing of the
wide result, the operand's shape, the exact synthetic input scale
`1/256`, the synthetic zero-point constant `0`, the node's output scale
and zero point, and the target dtype `Int(8)`. -/
theorem claim7_requantize_call_structure :
    ∀ (axis : Int) (a0 a1 a2 a3 a4 : RExpr) (shape : List Nat),
      QnnSoftmaxCanonicalize axis [a0, a1, a2, a3, a4] shape =
        Except.ok (Relay.Requantize
          (Relay.Cast (softmax_output a0 a2 a1 axis) (DType.int 32))
          shape
          (Relay.MakeConstantScalarF (DType.float 32) ⟨1, 256⟩)
          (const_i64 0) a3 a4 (DType.int 8) 0) :=
  fun _ _ _ _ _ _ _ => rfl

/-- Claim C8: whenever the validator succeeds (returns `true`), the
resolved output slot is a tensor whose shape equals the input tensor's
shape (delegated to the identity-shape rule), and the output's element
dtype, when already known, is not overridden. -/
theorem claim8_output_shape_identity :
    ∀ (axis : Int) (t0 t1 t2 t3 t4 t5 : RType) (out : List RType),
      QnnSoftmaxRel axis [t0, t1, t2, t3, t4, t5] = Except.ok (true, out) →
      rshape (out.getD 5 RType.incomplete) = rshape t0 ∧
      (t5 ≠ RType.incomplete →
        rdtype (out.getD 5 RType.incomplete) = rdtype t5) := by
  intro axis t0 t1 t2 t3 t4 t5 out h
  cases t0 with
  | incomplete => simp [QnnSoftmaxRel] at h
  | tensor dt shape =>
    cases t5 with
    | incomplete =>
      simp only [QnnSoftmaxRel, IdentityRel] at h
      split_ifs at h <;>
        simp only [Except.ok.injEq, Prod.mk.injEq, reduceCtorEq,
          false_and, and_false] at h <;>
        obtain ⟨-, rfl⟩ := h <;>
        simp [rshape, rdtype, List.getD]
    | tensor odt s5 =>
      simp only [QnnSoftmaxRel, IdentityRel] at h
      split_ifs at h <;>
        simp only [Except.ok.injEq, Prod.mk.injEq, reduceCtorEq,
          false_and, and_false] at h <;>
        obtain ⟨-, rfl⟩ := h <;>
        simp [rshape, rdtype, List.getD]

/-- Claim C8 witness: a successful run on a rank-2 input whose output
slot is already an `int8` tensor of a different shape; the resolved
output gets the input's shape and keeps its dtype. -/
theorem claim8_witness :
    rshape (([RType.tensor (DType.int 8) [2, 3],
      RType.tensor (DType.float 32) [], RType.tensor (DType.int 32) [],
      RType.tensor (DType.float 32) [], RType.tensor (DType.int 32) [],
      RType.tensor (DType.int 8) [2, 3]] : List RType).getD 5
        RType.incomplete) =
      rshape (RType.tensor (DType.int 8) [2, 3]) ∧
    rdtype (([RType.tensor (DType.int 8) [2, 3],
      RType.tensor (DType.float 32) [], RType.tensor (DType.int 32) [],
      RType.tensor (DType.float 32) [], RType.tensor (DType.int 32) [],
      RType.tensor (DType.int 8) [2, 3]] : List RType).getD 5
        RType.incomplete) =
      rdtype (RType.tensor (DType.int 8) [7]) :=
  ⟨(claim8_output_shape_identity 0 (RType.tensor (DType.int 8) [2, 3])
      (RType.tensor (DType.float 32) []) (RType.tensor (DType.int 32) [])
      (RType.tensor (DType.float 32) []) (RType.tensor (DType.int 32) [])
      (RType.tensor (DType.int 8) [7]) _ (by decide)).1,
    (claim8_output_shape_identity 0 (RType.tensor (DType.int 8) [2, 3])
      (RType.tensor (DType.float 32) []) (RType.tensor (DType.int 32) [])
      (RType.tensor (DType.float 32) []) (RType.tensor (DType.int 32) [])
      (RType.tensor (DType.int 8) [7]) _ (by decide)).2 (by decide)⟩

set_option maxRecDepth 8000 in
set_option maxHeartbeats 2000000 in
/-- Claim C10: every named intermediate the lowering builds — from the
widened operand through the centered, shifted, adjusted, quotient,
remainder, exponent, sum and normalized values, and the shift/divide
constants — has static dtype `Int(64)`, and the only narrowing cast in
the whole returned fragment is the single cast to `Int(32)` of the wide
result (whose operand dtype is `Int(64)`). -/
theorem claim10_intermediates_int64_single_narrowing :
    ∀ (axis : Int) (shape : List Nat),
      dtypeOf (softmax_quantized_data data_arg zp_arg) =
        some (DType.int 64) ∧
      dtypeOf (softmax_x_0 scale_arg) = some (DType.int 64) ∧
      dtypeOf (softmax_max data_arg zp_arg axis) = some (DType.int 64) ∧
      dtypeOf (softmax_x data_arg zp_arg axis) = some (DType.int 64) ∧
      dtypeOf (softmax_x_p data_arg zp_arg axis) = some (DType.int 64) ∧
      dtypeOf (softmax_q data_arg zp_arg scale_arg axis) =
        some (DType.int 64) ∧
      dtypeOf (softmax_r data_arg zp_arg scale_arg axis) =
        some (DType.int 64) ∧
      dtypeOf (softmax_x_b data_arg zp_arg scale_arg axis) =
        some (DType.int 64) ∧
      dtypeOf (softmax_exps data_arg zp_arg scale_arg axis) =
        some (DType.int 64) ∧
      dtypeOf (softmax_sums data_arg zp_arg scale_arg axis) =
        some (DType.int 64) ∧
      dtypeOf (softmax_output data_arg zp_arg scale_arg axis) =
        some (DType.int 64) ∧
      (∀ v : Int, dtypeOf (const_i64 v) = some (DType.int 64)) ∧
      (QnnSoftmaxCanonicalize axis std_args shape).map
        (fun f => (collectCasts f).filter isNarrowing) =
        Except.ok [(some (DType.int 64), DType.int 32)] := by
  intro axis shape
  refine ⟨rfl, rfl, rfl, rfl, rfl, rfl, rfl, rfl, rfl, rfl, rfl,
    fun v => rfl, ?_⟩
  simp only [QnnSoftmaxCanonicalize, std_args, data_arg, scale_arg, zp_arg,
    oscale_arg, ozp_arg, softmax_output, softmax_sums, softmax_exps,
    softmax_x_b, softmax_r, softmax_q, softmax_x_p, softmax_x, softmax_max,
    softmax_x_0, softmax_quantized_data, const_i64, Relay.Requantize,
    Relay.Cast, Relay.Subtract, Relay.Add, Relay.Multiply, Relay.Divide,
    Relay.Negative, Relay.RightShift, Relay.LeftShift, Relay.Max, Relay.Sum,
    Relay.Round, Relay.MakeConstantScalar, Relay.MakeConstantScalarF,
    collectCasts, dtypeOf, isNarrowing, Except.map, Option.bind, Option.map,
    List.filter_append, List.append_assoc]
  decide

/-- Claim C4: on the 1-D `int8` input `[10, 20, 5]` with
`scale_in = 1/256`, `zero_point_in = 0`, `axis = 0`, the fragment's
`exps` tensor has its largest value at the element `20` (index 1) and the
normalized output also has its largest value there. -/
theorem claim4_rank_order_preserved :
    eval (envOf [10, 20, 5] ⟨1, 256⟩ 0 ⟨1, 1⟩ 0)
      (softmax_exps data_arg zp_arg scale_arg 0) =
      some (Val.vt [267361714176, 274877906944, 263066746880]) ∧
    (267361714176 : Int) < 274877906944 ∧
    (263066746880 : Int) < 274877906944 ∧
    eval (envOf [10, 20, 5] ⟨1, 256⟩ 0 ⟨1, 1⟩ 0)
      (softmax_output data_arg zp_arg scale_arg 0) =
      some (Val.vt [84, 87, 83]) ∧
    (84 : Int) < 87 ∧ (83 : Int) < 87 := by decide

/-- Wrapping into 64 bits is the identity on in-range values. -/
theorem wrap64_eq (v : Int) (h1 : -(2 ^ 63) ≤ v) (h2 : v < 2 ^ 63) :
    wrapInt 64 v = v := by
  norm_num [wrapInt]
  omega

/-- Evaluation of a `Max` reduction node over a tensor operand. -/
theorem eval_maxR_t (env : Nat → Val) (e : RExpr) (xs : List Int)
    (axis : Int) (k x : Bool) (h : eval env e = some (Val.vt xs)) :
    eval env (RExpr.maxR e axis k x) = some (Val.vi (reduceMax xs)) := by
  simp [eval, h]

/-- Evaluation of a `Sum` reduction node over a tensor operand. -/
theorem eval_sumR_t (env : Nat → Val) (e : RExpr) (xs : List Int)
    (axis : Int) (k x : Bool) (h : eval env e = some (Val.vt xs)) :
    eval env (RExpr.sumR e axis k x) = some (Val.vi xs.sum) := by
  simp [eval, h]

/-- Evaluation of `Subtract` on two tensors of equal length. -/
theorem eval_sub_tt (env : Nat → Val) (a b : RExpr) (xs ys : List Int)
    (ha : eval env a = some (Val.vt xs)) (hb : eval env b = some (Val.vt ys))
    (hl : xs.length = ys.length) :
    eval env (RExpr.sub a b) =
      some (Val.vt (List.zipWith (fun x y => x - y) xs ys)) := by
  simp [eval, ha, hb, broadcast2, hl]

/-- Evaluation of `Subtract` broadcasting a scalar on the right. -/
theorem eval_sub_tv (env : Nat → Val) (a b : RExpr) (xs : List Int) (n : Int)
    (ha : eval env a = some (Val.vt xs)) (hb : eval env b = some (Val.vi n)) :
    eval env (RExpr.sub a b) =
      some (Val.vt (xs.map (fun x => x - n))) := by
  simp [eval, ha, hb, broadcast2]

/-- Evaluation of `Subtract` broadcasting a scalar on the left. -/
theorem eval_sub_vt (env : Nat → Val) (a b : RExpr) (n : Int) (ys : List Int)
    (ha : eval env a = some (Val.vi n)) (hb : eval env b = some (Val.vt ys)) :
    eval env (RExpr.sub a b) =
      some (Val.vt (ys.map (fun y => n - y))) := by
  simp [eval, ha, hb, broadcast2]

/-- Evaluation of `Add` on two tensors of equal length. -/
theorem eval_add_tt (env : Nat → Val) (a b : RExpr) (xs ys : List Int)
    (ha : eval env a = some (Val.vt xs)) (hb : eval env b = some (Val.vt ys))
    (hl : xs.length = ys.length) :
    eval env (RExpr.add a b) =
      some (Val.vt (List.zipWith (fun x y => x + y) xs ys)) := by
  simp [eval, ha, hb, broadcast2, hl]

/-- Evaluation of `Add` broadcasting a scalar on the right. -/
theorem eval_add_tv (env : Nat → Val) (a b : RExpr) (xs : List Int) (n : Int)
    (ha : eval env a = some (Val.vt xs)) (hb : eval env b = some (Val.vi n)) :
    eval env (RExpr.add a b) =
      some (Val.vt (xs.map (fun x => x + n))) := by
  simp [eval, ha, hb, broadcast2]

/-- Evaluation of `Multiply` broadcasting a scalar on the right. -/
theorem eval_mul_tv (env : Nat → Val) (a b : RExpr) (xs : List Int) (n : Int)
    (ha : eval env a = some (Val.vt xs)) (hb : eval env b = some (Val.vi n)) :
    eval env (RExpr.mul a b) =
      some (Val.vt (xs.map (fun x => x * n))) := by
  simp [eval, ha, hb, broadcast2]

/-- Evaluation of `Multiply` broadcasting a scalar on the left. -/
theorem eval_mul_vt (env : Nat → Val) (a b : RExpr) (n : Int) (ys : List Int)
    (ha : eval env a = some (Val.vi n)) (hb : eval env b = some (Val.vt ys)) :
    eval env (RExpr.mul a b) =
      some (Val.vt (ys.map (fun y => n * y))) := by
  simp [eval, ha, hb, broadcast2]

/-- Evaluation of integer `Divide` broadcasting a scalar divisor. -/
theorem eval_div_tv (env : Nat → Val) (a b : RExpr) (xs : List Int) (n : Int)
    (ha : eval env a = some (Val.vt xs)) (hb : eval env b = some (Val.vi n)) :
    eval env (RExpr.div a b) =
      some (Val.vt (xs.map (fun x => Int.tdiv x n))) := by
  simp [eval, ha, hb, broadcast2]

/-- Evaluation of integer `Divide` on two scalars. -/
theorem eval_div_vv (env : Nat → Val) (a b : RExpr) (n m : Int)
    (ha : eval env a = some (Val.vi n)) (hb : eval env b = some (Val.vi m)) :
    eval env (RExpr.div a b) = some (Val.vi (Int.tdiv n m)) := by
  simp [eval, ha, hb, broadcast2]

/-- Evaluation of `Negative` on an integer scalar. -/
theorem eval_neg_v (env : Nat → Val) (a : RExpr) (n : Int)
    (ha : eval env a = some (Val.vi n)) :
    eval env (RExpr.neg a) = some (Val.vi (-n)) := by
  simp [eval, ha]

/-- Evaluation of `RightShift` of a tensor by a scalar amount. -/
theorem eval_shiftR_tv (env : Nat → Val) (a b : RExpr) (xs : List Int)
    (n : Int) (ha : eval env a = some (Val.vt xs))
    (hb : eval env b = some (Val.vi n)) :
    eval env (RExpr.shiftR a b) =
      some (Val.vt (xs.map (fun x => rsh x n))) := by
  simp [eval, ha, hb, broadcast2]

/-- Evaluation of elementwise `LeftShift` of a tensor by a tensor. -/
theorem eval_shiftL_tt (env : Nat → Val) (a b : RExpr) (xs ys : List Int)
    (ha : eval env a = some (Val.vt xs)) (hb : eval env b = some (Val.vt ys))
    (hl : xs.length = ys.length) :
    eval env (RExpr.shiftL a b) =
      some (Val.vt (List.zipWith shl xs ys)) := by
  simp [eval, ha, hb, broadcast2, hl]

/-- The fragment's `quantized_data` evaluates to the reference
`centered` sequence (the casts are identities on in-range operands). -/
theorem eval_quantized_data (data : List Int) (s os : Frac) (zp oz : Int)
    (h8 : ∀ d ∈ data, -128 ≤ d ∧ d ≤ 127)
    (hzl : -(2 ^ 31) ≤ zp) (hzr : zp < 2 ^ 31) :
    eval (envOf data s zp os oz) (softmax_quantized_data data_arg zp_arg) =
      some (Val.vt (specCentered data zp)) := by
  have hmap : data.map (wrapInt 64) = data := by
    conv_rhs => rw [← List.map_id data]
    exact List.map_congr_left (fun a ha => wrap64_eq a
      (by have := h8 a ha; omega) (by have := h8 a ha; omega))
  have hz : wrapInt 64 zp = zp := wrap64_eq zp (by omega) (by omega)
  simp [softmax_quantized_data, Relay.Subtract, Relay.Cast, eval, envOf,
    data_arg, zp_arg, hmap, hz, broadcast2, specCentered]

/-- The fragment's `max` evaluates to the reference reduction maximum. -/
theorem eval_max (data : List Int) (s os : Frac) (zp oz : Int) (axis : Int)
    (h8 : ∀ d ∈ data, -128 ≤ d ∧ d ≤ 127)
    (hzl : -(2 ^ 31) ≤ zp) (hzr : zp < 2 ^ 31) :
    eval (envOf data s zp os oz) (softmax_max data_arg zp_arg axis) =
      some (Val.vi (reduceMax (specCentered data zp))) := by
  simp only [softmax_max, Relay.Max]
  exact eval_maxR_t _ _ _ axis true false
    (eval_quantized_data data s os zp oz h8 hzl hzr)

/-- The fragment's `x` evaluates to the reference `x` sequence. -/
theorem eval_x (data : List Int) (s os : Frac) (zp oz : Int) (axis : Int)
    (h8 : ∀ d ∈ data, -128 ≤ d ∧ d ≤ 127)
    (hzl : -(2 ^ 31) ≤ zp) (hzr : zp < 2 ^ 31) :
    eval (envOf data s zp os oz) (softmax_x data_arg zp_arg axis) =
      some (Val.vt (specX data zp)) := by
  simp only [softmax_x, Relay.Subtract]
  rw [eval_sub_tv _ _ _ _ _
    (eval_quantized_data data s os zp oz h8 hzl hzr)
    (eval_max data s os zp oz axis h8 hzl hzr)]
  rfl

/-- The fragment's `x_0` evaluates to the reference reciprocal-scale
constant `round(1/scale_in)`. -/
theorem eval_x_0 (data : List Int) (s os : Frac) (zp oz : Int)
    (hx0l : -(2 ^ 63) ≤ recipRound s) (hx0r : recipRound s < 2 ^ 63) :
    eval (envOf data s zp os oz) (softmax_x_0 scale_arg) =
      some (Val.vi (recipRound s)) := by
  have hw : wrapInt 64 (recipRound s) = recipRound s :=
    wrap64_eq _ hx0l hx0r
  simp [softmax_x_0, Relay.Cast, Relay.Round, Relay.Divide,
    Relay.MakeConstantScalarF, eval, envOf, scale_arg, Frac.trunc]
  exact hw

/-- The fragment's `x_p` evaluates to the reference `x_p` sequence. -/
theorem eval_x_p (data : List Int) (s os : Frac) (zp oz : Int) (axis : Int)
    (h8 : ∀ d ∈ data, -128 ≤ d ∧ d ≤ 127)
    (hzl : -(2 ^ 31) ≤ zp) (hzr : zp < 2 ^ 31) :
    eval (envOf data s zp os oz) (softmax_x_p data_arg zp_arg axis) =
      some (Val.vt (specXp data zp)) := by
  have hx := eval_x data s os zp oz axis h8 hzl hzr
  have hs1 := eval_shiftR_tv _ _ (const_i64 1) _ 1 hx rfl
  have hs4 := eval_shiftR_tv _ _ (const_i64 4) _ 4 hx rfl
  have hadd := eval_add_tt _ _ _ _ _ hx hs1 (by simp)
  have hsub := eval_sub_tt _ _ _ _ _ hadd hs4 (by simp)
  simp only [softmax_x_p, Relay.Subtract, Relay.Add, Relay.RightShift]
  rw [hsub]
  simp [specXp, List.zipWith_map_right, List.zipWith_map_left,
    List.zipWith_same]

/-- The fragment's `q` evaluates to the reference quotient sequence. -/
theorem eval_q (data : List Int) (s os : Frac) (zp oz : Int) (axis : Int)
    (h8 : ∀ d ∈ data, -128 ≤ d ∧ d ≤ 127)
    (hzl : -(2 ^ 31) ≤ zp) (hzr : zp < 2 ^ 31)
    (hx0l : -(2 ^ 63) ≤ recipRound s) (hx0r : recipRound s < 2 ^ 63) :
    eval (envOf data s zp os oz)
      (softmax_q data_arg zp_arg scale_arg axis) =
      some (Val.vt (specQ data zp (recipRound s))) := by
  have hxp := eval_x_p data s os zp oz axis h8 hzl hzr
  have hneg := eval_neg_v _ _ _ (eval_x_0 data s os zp oz hx0l hx0r)
  simp only [softmax_q, Relay.Divide, Relay.Negative]
  rw [eval_div_tv _ _ _ _ _ hxp hneg]
  rfl

/-- The fragment's `r` evaluates to the reference remainder sequence. -/
theorem eval_r (data : List Int) (s os : Frac) (zp oz : Int) (axis : Int)
    (h8 : ∀ d ∈ data, -128 ≤ d ∧ d ≤ 127)
    (hzl : -(2 ^ 31) ≤ zp) (hzr : zp < 2 ^ 31)
    (hx0l : -(2 ^ 63) ≤ recipRound s) (hx0r : recipRound s < 2 ^ 63) :
    eval (envOf data s zp os oz)
      (softmax_r data_arg zp_arg scale_arg axis) =
      some (Val.vt (specR data zp (recipRound s))) := by
  have hxp := eval_x_p data s os zp oz axis h8 hzl hzr
  have hq := eval_q data s os zp oz axis h8 hzl hzr hx0l hx0r
  have hneg := eval_neg_v _ _ _ (eval_x_0 data s os zp oz hx0l hx0r)
  have hmul := eval_mul_tv _ _ _ _ _ hq hneg
  have hsub := eval_sub_tt _ _ _ _ _ hxp hmul
    (by simp [specQ, specXp])
  simp only [softmax_r, Relay.Subtract, Relay.Multiply, Relay.Negative]
  rw [hsub]
  simp [specR, specQ, List.zipWith_map_right, List.zipWith_same]
  intro a ha
  ring

/-- The fragment's `x_b` evaluates to the reference `x_b` sequence. -/
theorem eval_x_b (data : List Int) (s os : Frac) (zp oz : Int) (axis : Int)
    (h8 : ∀ d ∈ data, -128 ≤ d ∧ d ≤ 127)
    (hzl : -(2 ^ 31) ≤ zp) (hzr : zp < 2 ^ 31)
    (hx0l : -(2 ^ 63) ≤ recipRound s) (hx0r : recipRound s < 2 ^ 63) :
    eval (envOf data s zp os oz)
      (softmax_x_b data_arg zp_arg scale_arg axis) =
      some (Val.vt (specXb data zp (recipRound s))) := by
  have hr := eval_r data s os zp oz axis h8 hzl hzr hx0l hx0r
  have hs1 := eval_shiftR_tv _ _ (const_i64 1) _ 1 hr rfl
  have hadd := eval_add_tv _ _ _ _ _ hs1
    (eval_x_0 data s os zp oz hx0l hx0r)
  simp only [softmax_x_b, Relay.Add, Relay.RightShift]
  rw [hadd]
  simp [specXb, List.map_map]

/-- The fragment's `exps` evaluates to the reference exponent
approximations. -/
theorem eval_exps (data : List Int) (s os : Frac) (zp oz : Int) (axis : Int)
    (h8 : ∀ d ∈ data, -128 ≤ d ∧ d ≤ 127)
    (hzl : -(2 ^ 31) ≤ zp) (hzr : zp < 2 ^ 31)
    (hx0l : -(2 ^ 63) ≤ recipRound s) (hx0r : recipRound s < 2 ^ 63) :
    eval (envOf data s zp os oz)
      (softmax_exps data_arg zp_arg scale_arg axis) =
      some (Val.vt (specExps data zp (recipRound s))) := by
  have hxb := eval_x_b data s os zp oz axis h8 hzl hzr hx0l hx0r
  have hq := eval_q data s os zp oz axis h8 hzl hzr hx0l hx0r
  have hsub := eval_sub_vt _ (const_i64 softmax_n) _ 30 _ rfl hq
  have hshl := eval_shiftL_tt _ _ _ _ _ hxb hsub
    (by simp [specXb, specR, specQ, specXp])
  simp only [softmax_exps, Relay.LeftShift, Relay.Subtract]
  rw [hshl]
  simp [specExps, List.zipWith_map_right]

/-- The fragment's `sums` evaluates to the reference exponent sum. -/
theorem eval_sums (data : List Int) (s os : Frac) (zp oz : Int) (axis : Int)
    (h8 : ∀ d ∈ data, -128 ≤ d ∧ d ≤ 127)
    (hzl : -(2 ^ 31) ≤ zp) (hzr : zp < 2 ^ 31)
    (hx0l : -(2 ^ 63) ≤ recipRound s) (hx0r : recipRound s < 2 ^ 63) :
    eval (envOf data s zp os oz)
      (softmax_sums data_arg zp_arg scale_arg axis) =
      some (Val.vi (specExps data zp (recipRound s)).sum) := by
  simp only [softmax_sums, Relay.Sum]
  exact eval_sumR_t _ _ _ axis true false
    (eval_exps data s os zp oz axis h8 hzl hzr hx0l hx0r)

/-- The fragment's `output` evaluates to the reference `output_wide`
sequence. -/
theorem eval_output (data : List Int) (s os : Frac) (zp oz : Int)
    (axis : Int)
    (h8 : ∀ d ∈ data, -128 ≤ d ∧ d ≤ 127)
    (hzl : -(2 ^ 31) ≤ zp) (hzr : zp < 2 ^ 31)
    (hx0l : -(2 ^ 63) ≤ recipRound s) (hx0r : recipRound s < 2 ^ 63) :
    eval (envOf data s zp os oz)
      (softmax_output data_arg zp_arg scale_arg axis) =
      some (Val.vt (specOutputWide data zp (recipRound s))) := by
  have hexps := eval_exps data s os zp oz axis h8 hzl hzr hx0l hx0r
  have hsums := eval_sums data s os zp oz axis h8 hzl hzr hx0l hx0r
  have hdiv := eval_div_vv _ (const_i64 (2 ^ 60)) _ (2 ^ 60) _ rfl hsums
  have hmul := eval_mul_vt _ _ _ _ _ hdiv hexps
  have hshr := eval_shiftR_tv _ _ (const_i64 (softmax_m - softmax_bits)) _
    52 hmul rfl
  simp only [softmax_output, Relay.RightShift, Relay.Multiply, Relay.Divide]
  rw [hshr]
  simp [specOutputWide, List.map_map]

/-- Bound for the amended claim C3: when `x0 = round(1/scale_in)` is at
least 12, every reference quotient is at most `n = 30` (each `x` lies in
`[-255, 0]`, so `x_p` lies in `[-367, 0]` and the truncating quotient by
`x0` is below 31). -/
theorem specQ_le_30 (data : List Int) (zp x0 : Int)
    (h8 : ∀ d ∈ data, -128 ≤ d ∧ d ≤ 127) (h12 : 12 ≤ x0) :
    ∀ v ∈ specQ data zp x0, v ≤ 30 := by
  intro v hv
  simp only [specQ, List.mem_map] at hv
  obtain ⟨xp, hxp, rfl⟩ := hv
  simp only [specXp, List.mem_map] at hxp
  obtain ⟨x, hx, rfl⟩ := hxp
  simp only [specX, List.mem_map] at hx
  obtain ⟨c, hc, rfl⟩ := hx
  have hcM : c ≤ reduceMax (specCentered data zp) :=
    mem_le_reduceMax _ c hc
  have hMle : reduceMax (specCentered data zp) ≤ 127 - zp := by
    apply reduceMax_le _ _ (List.ne_nil_of_mem hc)
    intro a ha
    simp only [specCentered, List.mem_map] at ha
    obtain ⟨d, hd, rfl⟩ := ha
    have := (h8 d hd).2
    omega
  have hcge : -128 - zp ≤ c := by
    simp only [specCentered, List.mem_map] at hc
    obtain ⟨d, hd, rfl⟩ := hc
    have := (h8 d hd).1
    omega
  have hxle : c - reduceMax (specCentered data zp) ≤ 0 := by omega
  have hxge : -255 ≤ c - reduceMax (specCentered data zp) := by omega
  set x := c - reduceMax (specCentered data zp) with hxdef
  have h1 : rsh x 1 = x / 2 := by
    simp only [rsh, Int.toNat_ofNat]
    norm_num
  have h4 : rsh x 4 = x / 16 := by
    have ht4 : ((4 : Int).toNat) = 4 := rfl
    simp only [rsh, ht4]
    norm_num
  have hxple : x + rsh x 1 - rsh x 4 ≤ 0 := by rw [h1, h4]; omega
  have hxpge : -367 ≤ x + rsh x 1 - rsh x 4 := by rw [h1, h4]; omega
  rw [Int.tdiv_neg, ← Int.neg_tdiv,
    Int.tdiv_eq_ediv (by omega) (by omega)]
  have h31 : -(x + rsh x 1 - rsh x 4) < 31 * x0 := by linarith
  have := (Int.ediv_lt_iff_lt_mul
    (show (0 : Int) < x0 by omega)).mpr h31
  omega

/-- Claim C1: on every int8 operand slice (any zero point in `int32`
range, any scale whose rounded reciprocal is `int64`-representable), the
lowered fragment's wide output evaluates exactly to the spec algorithm's
integer sequence with constants `n = 30`, `m = 60`, `bits = 8`. -/
theorem claim1_fragment_matches_spec_algorithm :
    ∀ (axis : Int) (data : List Int) (s os : Frac) (zp oz : Int),
      (∀ d ∈ data, -128 ≤ d ∧ d ≤ 127) →
      -(2 ^ 31) ≤ zp → zp < 2 ^ 31 →
      -(2 ^ 63) ≤ recipRound s → recipRound s < 2 ^ 63 →
      eval (envOf data s zp os oz)
        (softmax_output data_arg zp_arg scale_arg axis) =
        some (Val.vt (specOutputWide data zp (recipRound s))) :=
  fun axis data s os zp oz h8 hzl hzr hx0l hx0r =>
    eval_output data s os zp oz axis h8 hzl hzr hx0l hx0r

/-- Claim C1 witness: the equality at the concrete slice `[10, 20, 5]`,
scale `1/256`, zero point `0`. -/
theorem claim1_witness :
    eval (envOf [10, 20, 5] ⟨1, 256⟩ 0 ⟨1, 1⟩ 0)
      (softmax_output data_arg zp_arg scale_arg 0) =
      some (Val.vt (specOutputWide [10, 20, 5] 0 (recipRound ⟨1, 256⟩))) :=
  claim1_fragment_matches_spec_algorithm 0 [10, 20, 5] ⟨1, 256⟩ ⟨1, 1⟩ 0 0
    (by decide) (by decide) (by decide) (by decide) (by decide)

/-- Claim C3 counterexample: for the valid input `[127, -128]` with
`scale_in = 1` (so `x0 = round(1/scale_in) = 1 > 0`), the fragment's
quotient tensor contains `367 > 30`, so the left-shift amount
`n - q` is negative there. -/
theorem claim3_counterexample_q_exceeds_n :
    eval (envOf [127, -128] ⟨1, 1⟩ 0 ⟨1, 1⟩ 0) (softmax_x_0 scale_arg) =
      some (Val.vi 1) ∧
    (0 : Int) < 1 ∧
    eval (envOf [127, -128] ⟨1, 1⟩ 0 ⟨1, 1⟩ 0)
      (softmax_q data_arg zp_arg scale_arg 0) =
      some (Val.vt [0, 367]) ∧
    ¬ (367 : Int) ≤ 30 := by decide

/-- Claim C3 (amended): the per-element quotient is at most `n = 30` for
valid inputs whose reciprocal-scale constant satisfies
`x0 = round(1/scale_in) >= 12`; with smaller `x0` (for example `x0 = 1`)
the bound fails. -/
theorem claim3_amended_q_le_n_for_reciprocal_at_least_12 :
    ∀ (axis : Int) (data : List Int) (s os : Frac) (zp oz : Int),
      (∀ d ∈ data, -128 ≤ d ∧ d ≤ 127) →
      -(2 ^ 31) ≤ zp → zp < 2 ^ 31 →
      12 ≤ recipRound s → recipRound s < 2 ^ 63 →
      qBounded (eval (envOf data s zp os oz)
        (softmax_q data_arg zp_arg scale_arg axis)) = true := by
  intro axis data s os zp oz h8 hzl hzr h12 hx0r
  rw [eval_q data s os zp oz axis h8 hzl hzr (by omega) hx0r]
  simp only [qBounded, List.all_eq_true, decide_eq_true_eq]
  exact specQ_le_30 data zp (recipRound s) h8 h12

/-- Claim C3 (amended) witness: the bound at the concrete slice
`[10, 20, 5]` with scale `1/256` (`x0 = 256`). -/
theorem claim3_amended_witness :
    qBounded (eval (envOf [10, 20, 5] ⟨1, 256⟩ 0 ⟨1, 1⟩ 0)
      (softmax_q data_arg zp_arg scale_arg 0)) = true :=
  claim3_amended_q_le_n_for_reciprocal_at_least_12 0 [10, 20, 5] ⟨1, 256⟩
    ⟨1, 1⟩ 0 0 (by decide) (by decide) (by decide) (by decide) (by decide)
